import Mathlib

/-!
# Verification of the Valthrun controller core

Shallow embedding of the schema/offset resolver, the vtable class-name
decoder, the frame-loop backoff driver, the per-frame update bookkeeping
and the `PtrCStr` string-read helpers from
`src/controller/src/main.rs` and `src/cs2/src/ptr.rs`.

Foreign-process memory access (the `CS2Handle` read primitives, which live
in a crate outside the sources at hand) is modelled as explicit oracle
functions; the control flow proved about is the control flow of the
sources. `anyhow::Error` values are modelled as strings, matching the
`.context("...")` sites of the code.
-/

set_option autoImplicit false

namespace Valthrun

/-- `anyhow::Error`, modelled by its message string. -/
abbrev Err := String

/-- `Option::context(msg)` from `anyhow`: `None` becomes an error with the
given message, `Some v` succeeds with `v`. -/
def okOr {α : Type} (o : Option α) (e : Err) : Except Err α :=
  match o with
  | some v => .ok v
  | none => .error e

/-! ## Schema catalog data model

Mirrors the `cs2_schema_generated` types exactly as they are consumed by
`CS2RuntimeOffsets::resolve` in `src/controller/src/main.rs`:
scopes have a `schema_name` and `classes`; classes have a `class_name`
and member `offsets`; members have a `field_name` and an `offset`.
-/

/-- A schema class member: `field_name` paired with its byte `offset`. -/
structure SchemaMember where
  field_name : String
  offset : Nat
deriving DecidableEq, Repr

/-- A schema class: `class_name` plus its member `offsets`. -/
structure SchemaClass where
  class_name : String
  offsets : List SchemaMember
deriving DecidableEq, Repr

/-- A schema scope: `schema_name` plus its `classes`. -/
structure SchemaScope where
  schema_name : String
  classes : List SchemaClass
deriving DecidableEq, Repr

/-- A runtime offset request: the `(module, class, member)` triple.
The Rust field `class` is a Lean keyword, hence `cls`. -/
structure RuntimeOffset where
  module : String
  cls : String
  member : String
deriving DecidableEq, Repr

/-- The `CS2RuntimeOffsets` provider: a loaded schema dump. -/
structure CS2RuntimeOffsets where
  schema : List SchemaScope
deriving DecidableEq, Repr

/-- `CS2RuntimeOffsets::resolve` (src/controller/src/main.rs:324-341):
three-level exact-name lookup, each level failing with its own
`context` message when `Iterator::find` comes up empty. -/
def CS2RuntimeOffsets.resolve (self : CS2RuntimeOffsets) (offset : RuntimeOffset) :
    Except Err Nat := do
  let schema ← okOr
    (self.schema.find? (fun schema => schema.schema_name == offset.module))
    "unknown module"
  let cls ← okOr
    (schema.classes.find? (fun cls => offset.cls == cls.class_name))
    "unknown class"
  let member ← okOr
    (cls.offsets.find? (fun member => member.field_name == offset.member))
    "unknown class member"
  return member.offset

/-- Well-formedness of a loaded catalog, per the spec's data model:
scope names are distinct, class names are distinct within a scope and
member names are distinct within a class. -/
def catalogWF (c : CS2RuntimeOffsets) : Prop :=
  c.schema.Pairwise (fun a b => a.schema_name ≠ b.schema_name) ∧
  (∀ s ∈ c.schema,
    s.classes.Pairwise (fun a b => a.class_name ≠ b.class_name) ∧
    ∀ cl ∈ s.classes,
      cl.offsets.Pairwise (fun a b => a.field_name ≠ b.field_name))

/-- The spec's scenario catalog: `client.dll / CBaseEntity / m_iHealth`
at offset `0x344`. -/
def demoMember : SchemaMember := ⟨"m_iHealth", 0x344⟩

/-- The scenario class holding `demoMember`. -/
def demoClass : SchemaClass := ⟨"CBaseEntity", [demoMember]⟩

/-- The scenario scope holding `demoClass`. -/
def demoScope : SchemaScope := ⟨"client.dll", [demoClass]⟩

/-- The scenario catalog holding `demoScope`. -/
def demoCatalog : CS2RuntimeOffsets := ⟨[demoScope]⟩

/-! ## Vtable class-name resolution (the class_name_cache factory)

`src/controller/src/main.rs:401-435`. The `CS2Handle` read primitives the
closure calls live in the `cs2` handle crate outside the sources at hand,
so they are modelled as oracle functions; the closure's control flow is
embedded as written, instrumented with the ordered list of foreign-process
operations it performs.
-/

/-- One foreign-process operation of the factory closure: a qword read
(`reference_schema::<u64>`), a slice read (`read_slice`), the
`module_address(Module::Client, ..)` bounds check, or a capped string read
(`read_string(chain, cap)`). -/
inductive MemEvent where
  | qword (addr : Nat)
  | slice (addr len : Nat)
  | moduleCheck (addr : Nat)
  | str (chain : List Nat) (cap : Option Nat)
deriving DecidableEq, Repr

/-- Is the event a class-name string read? -/
def MemEvent.isStr : MemEvent → Bool
  | .str _ _ => true
  | _ => false

/-- Oracle for the `CS2Handle` primitives used by the factory closure. -/
structure CS2Memory where
  readQword : Nat → Except Err Nat
  readSlice16 : Nat → Except Err (Fin 16 → Nat)
  moduleAddressClient : Nat → Bool
  readString : List Nat → Option Nat → Except Err String

/-- `u64::wrapping_add`. -/
def wadd64 (a b : Nat) : Nat := (a + b) % 2 ^ 64

/-- The `u32` encoded little-endian by bytes `b0..b3`. -/
def leU32 (b0 b1 b2 b3 : Nat) : Nat :=
  b0 + 256 * b1 + 65536 * b2 + 16777216 * b3

/-- `i32::from_le_bytes(..) as u64` on the low 32 bits: reinterpret as a
signed 32-bit value and sign-extend to 64 bits (intended for `u < 2^32`). -/
def i32AsU64 (u : Nat) : Nat :=
  if u < 2 ^ 31 then u else u + (2 ^ 64 - 2 ^ 32)

/-- The closure's `lea rcx` pattern rejection:
`asm_buffer[9] != 0x48 || asm_buffer[10] != 0x8D || asm_buffer[11] != 0x15`. -/
def leaPatternMismatch (asm : Fin 16 → Nat) : Bool :=
  asm 9 != 0x48 || asm 10 != 0x8D || asm 11 != 0x15

/-- The schema-descriptor address the closure computes:
`fn_get_class_schema.wrapping_add(schema_offset).wrapping_add(0x10)` where
`schema_offset = i32::from_le_bytes(asm_buffer[12..16]) as u64`. -/
def classSchemaAddr (fnGetClassSchema : Nat) (asm : Fin 16 → Nat) : Nat :=
  wadd64 (wadd64 fnGetClassSchema
    (i32AsU64 (leU32 (asm 12) (asm 13) (asm 14) (asm 15)))) 0x10

/-- The displacement of instruction bytes 12..16 as a signed 32-bit
little-endian integer (the spec's reading of the encoded displacement). -/
def dispSigned (asm : Fin 16 → Nat) : Int :=
  if leU32 (asm 12) (asm 13) (asm 14) (asm 15) < 2 ^ 31 then
    (leU32 (asm 12) (asm 13) (asm 14) (asm 15) : Int)
  else
    (leU32 (asm 12) (asm 13) (asm 14) (asm 15) : Int) - 2 ^ 32

/-- The `class_name_cache` factory closure
(src/controller/src/main.rs:403-434), paired with its operation trace. -/
def classNameFactory (mem : CS2Memory) (vtable : Nat) :
    Except Err (Option String) × List MemEvent :=
  match mem.readQword (vtable + 0x00) with
  | .error e => (.error e, [.qword (vtable + 0x00)])
  | .ok fnGetClassSchema =>
    match mem.readSlice16 fnGetClassSchema with
    | .error e =>
      (.error e, [.qword (vtable + 0x00), .slice fnGetClassSchema 16])
    | .ok asm =>
      let ev := [MemEvent.qword (vtable + 0x00), MemEvent.slice fnGetClassSchema 16]
      if leaPatternMismatch asm then
        (.ok none, ev)
      else
        let class_schema := classSchemaAddr fnGetClassSchema asm
        let ev := ev ++ [MemEvent.moduleCheck class_schema]
        if !(mem.moduleAddressClient class_schema) then
          (.ok none, ev)
        else
          let chain := [class_schema + 0x08, 0]
          match mem.readString chain (some 32) with
          | .error e => (.error e, ev ++ [MemEvent.str chain (some 32)])
          | .ok class_name =>
            (.ok (some class_name), ev ++ [MemEvent.str chain (some 32)])

/-- A 16-byte buffer of zeroes: its leading bytes do not match the `lea`
pattern. -/
def asmZero : Fin 16 → Nat := fun _ => 0

/-- A 16-byte buffer carrying the `lea rcx` opcode bytes at 9..11 and a
zero displacement. -/
def asmLea : Fin 16 → Nat := fun i =>
  if i.val = 9 then 0x48 else if i.val = 10 then 0x8D
  else if i.val = 11 then 0x15 else 0

/-- Concrete oracle: every qword read yields `0x1000`, the instruction
buffer mismatches the pattern, everything else succeeds. -/
def memMismatch : CS2Memory :=
  ⟨fun _ => .ok 0x1000, fun _ => .ok asmZero, fun _ => true, fun _ _ => .ok "X"⟩

/-- Concrete oracle: the instruction buffer matches the pattern but the
Client-module bounds check fails for every address. -/
def memOutOfRange : CS2Memory :=
  ⟨fun _ => .ok 0x1000, fun _ => .ok asmLea, fun _ => false, fun _ _ => .ok "X"⟩

/-! ## Frame-loop failure backoff (main_overlay render closure)

`src/controller/src/main.rs:465-507`: the captured `update_fail_count`
and `update_timeout` variables, stepped once per frame. Time is in
milliseconds: a frame's `Instant::now()` is its `now`, and
`timeout.elapsed()` is `now - start`.
-/

/-- The captured mutable state of the render closure:
`update_fail_count` and `update_timeout` (start time, duration). -/
structure DriverState where
  failCount : Nat
  timeout : Option (Nat × Nat)
deriving DecidableEq, Repr

/-- The `app.update` phase of a frame, reached when no cool-down is
pending: on failure, a count already at the threshold (`>= 10`) enters
the cool-down `(now, 1000)` and resets the counter to 0, otherwise the
counter increments. The second component records that `app.update` was
invoked this frame. -/
def frameUpdatePhase (now : Nat) (updateOk : Bool) (s : DriverState) :
    DriverState × Bool :=
  if updateOk then (s, true)
  else if s.failCount ≥ 10 then
    ({ failCount := 0, timeout := some (now, 1000) }, true)
  else
    ({ s with failCount := s.failCount + 1 }, true)

/-- One frame of the render closure: a pending cool-down whose window has
not yet elapsed returns immediately (update not invoked); an elapsed one
is cleared and the frame proceeds to the update phase. `updateOk` is the
outcome `app.update(ui)` produces if invoked this frame. -/
def frameStep (now : Nat) (updateOk : Bool) (s : DriverState) :
    DriverState × Bool :=
  match s.timeout with
  | some (timeout, target) =>
    if now - timeout > target then
      frameUpdatePhase now updateOk { s with timeout := none }
    else
      (s, false)
  | none => frameUpdatePhase now updateOk s

/-- Run a sequence of `(now, updateOk)` frames, returning the final
driver state. -/
def runFrames (frames : List (Nat × Bool)) (s : DriverState) : DriverState :=
  match frames with
  | [] => s
  | (now, ok) :: rest => runFrames rest (frameStep now ok s).1

/-- Ten consecutive failing frames at times 0..9. -/
def tenFailures : List (Nat × Bool) :=
  (List.range 10).map (fun i => (i, false))

/-! ## Application::update (src/controller/src/main.rs:121-176)

The update sequence over oracle outcomes: per-enhancement
`update_settings` results, the settings-toggle key, the view-matrix
update, the `Globals` pointer-chain read, per-enhancement `update`
results, and the kernel interface's monotonically increasing total
read-call counter sampled at the end of the frame. Only the
`Application` fields that `update` reads or writes are modelled
(`view_controller`'s own state and the ui are outside the core).
-/

/-- `with_context(msg)` from `anyhow`: wraps an error with a message. -/
def withContext (c : String) (e : Err) : Err := c ++ ": " ++ e

/-- The per-frame `Globals` snapshot; its payload is opaque here — only
its identity matters to the claims. -/
structure Globals where
  value : Nat
deriving DecidableEq, Repr

/-- The `Application` fields `update` reads or writes, plus the resolved
`cs2_offsets.globals` root offset. -/
structure AppState where
  frame_read_calls : Nat
  last_total_read_calls : Nat
  settings_visible : Bool
  settings_dirty : Bool
  cs2_globals : Option Globals
  globals_offset : Nat
deriving DecidableEq, Repr

/-- Oracle outcomes for one invocation of `Application::update`. -/
structure UpdateEnv where
  settingsResults : List (Except Err Bool)
  keySettingsPressed : Bool
  viewMatrixResult : Except Err Unit
  readGlobalsChain : List Nat → Except Err Globals
  enhancementResults : List (Except Err Unit)
  totalReadCalls : Nat

/-- The `update_settings` loop: `settings_dirty` is set by every
enhancement returning `Ok(true)` before the first error; the first
error aborts the loop (`?`). -/
def updateSettingsLoop : List (Except Err Bool) → Bool → Bool × Option Err
  | [], dirty => (dirty, none)
  | .error e :: _, dirty => (dirty, some e)
  | .ok b :: rest, dirty => updateSettingsLoop rest (dirty || b)

/-- The first error among the enhancement `update` results (`?` in the
enhancement loop). -/
def firstError : List (Except Err Unit) → Option Err
  | [] => none
  | .error e :: _ => some e
  | .ok _ :: rest => firstError rest

/-- The settings-key toggle: flipping `settings_visible` and marking the
settings dirty when the overlay has just been closed. -/
def toggleSettingsKey (pressed : Bool) (s : AppState) : AppState :=
  if pressed then
    let visible := !s.settings_visible
    { s with settings_visible := visible,
             settings_dirty := s.settings_dirty || !visible }
  else s

/-- The outcome of one `Application::update` call: the state after the
call (Rust mutates `self` in place, so the partially mutated state is
kept on error too), the returned `Result`, and the `Globals` snapshot
handed to the enhancements (`none` when the call failed before
producing one). -/
structure UpdateOutcome where
  state : AppState
  result : Except Err Unit
  globalsUsed : Option Globals

/-- `Application::update` (src/controller/src/main.rs:121-176): settings
loop, key toggle, view-matrix update, fresh `Globals` read through the
chain `[self.cs2_offsets.globals, 0]`, enhancement loop, then the
read-call bookkeeping — reached only when every prior step succeeded. -/
def Application.update (env : UpdateEnv) (s : AppState) : UpdateOutcome :=
  let step1 := updateSettingsLoop env.settingsResults s.settings_dirty
  let s1 := { s with settings_dirty := step1.1 }
  match step1.2 with
  | some e => ⟨s1, .error e, none⟩
  | none =>
    let s2 := toggleSettingsKey env.keySettingsPressed s1
    match env.viewMatrixResult with
    | .error e => ⟨s2, .error e, none⟩
    | .ok _ =>
      match env.readGlobalsChain [s2.globals_offset, 0] with
      | .error e => ⟨s2, .error (withContext "failed to read globals" e), none⟩
      | .ok globals =>
        match firstError env.enhancementResults with
        | some e => ⟨s2, .error e, some globals⟩
        | none =>
          let read_calls := env.totalReadCalls
          ⟨{ s2 with
              frame_read_calls := read_calls - s2.last_total_read_calls,
              last_total_read_calls := read_calls },
            .ok (), some globals⟩

/-- A concrete all-success update environment performing 7 reads. -/
def envOk : UpdateEnv :=
  ⟨[.ok false], false, .ok (), fun _ => .ok ⟨42⟩, [.ok ()], 7⟩

/-- A concrete environment whose view-matrix update fails. -/
def envViewFail : UpdateEnv :=
  ⟨[.ok false], false, .error "view fault", fun _ => .ok ⟨42⟩, [.ok ()], 7⟩

/-- A concrete starting application state. -/
def appState0 : AppState := ⟨1, 3, false, false, none, 0x50⟩

/-! ## main_overlay startup (src/controller/src/main.rs:354-509) -/

/-- Observable milestones of `main_overlay` after its fallible startup
steps: overlay initialization and entry into the frame loop. -/
inductive OverlayEvent where
  | overlayInitialized
  | frameLoopEntered
deriving DecidableEq, Repr

/-- Oracle outcomes for the fallible steps of `main_overlay`, in program
order: `version_info()`, `load_app_settings()`, `CS2Handle::create()`,
`BuildInfo::read_build_info`, `CS2Offsets::resolve_offsets`,
`cs2::dump_schema` (inside `setup_runtime_offset_provider`),
`overlay::init` and the frame loop itself. -/
structure OverlayEnv where
  versionInfo : Except Err Unit
  loadSettings : Except Err Unit
  createHandle : Except Err Unit
  readBuildInfo : Except Err Unit
  resolveOffsets : Except Err Unit
  dumpSchema : Except Err Unit
  overlayInit : Except Err Unit
  mainLoopResult : Except Err Unit

/-- `main_overlay` (src/controller/src/main.rs:354-509): each `?`
propagates its error (with the code's `with_context` wrappers); the
overlay is initialized and the frame loop entered only after every
startup step succeeded. -/
def main_overlay (env : OverlayEnv) : Except Err Unit × List OverlayEvent :=
  match env.versionInfo with
  | .error e => (.error e, [])
  | .ok _ =>
  match env.loadSettings with
  | .error e => (.error e, [])
  | .ok _ =>
  match env.createHandle with
  | .error e => (.error e, [])
  | .ok _ =>
  match env.readBuildInfo with
  | .error e =>
    (.error (withContext
      "Failed to load CS2 build info. CS2 version might be newer / older then expected" e), [])
  | .ok _ =>
  match env.resolveOffsets with
  | .error e => (.error (withContext "failed to load CS2 offsets" e), [])
  | .ok _ =>
  match env.dumpSchema with
  | .error e => (.error e, [])
  | .ok _ =>
  match env.overlayInit with
  | .error e => (.error e, [])
  | .ok _ =>
    (env.mainLoopResult, [.overlayInitialized, .frameLoopEntered])

/-- A concrete startup environment whose build-info read fails. -/
def envBuildInfoFail : OverlayEnv :=
  ⟨.ok (), .ok (), .ok (), .error "pattern not found", .ok (), .ok (), .ok (), .ok ()⟩

/-! ## PtrCStr string reads (src/cs2/src/ptr.rs)

`PtrCStr` and `CS2Handle::read_string` live outside the sources at hand;
the stored address accessor and the string read are oracles, and each
function is paired with the list of addresses at which it issued a
string read.
-/

/-- A `PtrCStr`: the outcome of its `address()` accessor (retrieving the
stored pointer value may itself fail). -/
structure PtrCStr where
  address : Except Err Nat

/-- `PCStrEx::read_string` for `PtrCStr` (src/cs2/src/ptr.rs:11-13):
reads at the stored address unconditionally (chain `[address]`,
uncapped). -/
def PtrCStr.read_string (p : PtrCStr) (readStr : Nat → Except Err String) :
    Except Err String × List Nat :=
  match p.address with
  | .error e => (.error e, [])
  | .ok a => (readStr a, [a])

/-- `PCStrEx::try_read_string` for `PtrCStr` (src/cs2/src/ptr.rs:15-22):
a resolved address of 0 yields `Ok(None)` with no read attempted;
otherwise the string is read and wrapped in `Some`. -/
def PtrCStr.try_read_string (p : PtrCStr) (readStr : Nat → Except Err String) :
    Except Err (Option String) × List Nat :=
  match p.address with
  | .error e => (.error e, [])
  | .ok a =>
    if a = 0 then (.ok none, [])
    else
      match readStr a with
      | .error e => (.error e, [a])
      | .ok s => (.ok (some s), [a])

/-- A `PtrCStr` holding a null pointer. -/
def ptrNull : PtrCStr := ⟨.ok 0⟩

/-- A `PtrCStr` holding the address 5. -/
def ptrFive : PtrCStr := ⟨.ok 5⟩

/-- A string-read oracle that always succeeds. -/
def memStr : Nat → Except Err String := fun _ => .ok "hello"

/-- `List.find?` returns the designated element when the predicate singles
it out among the members of the list. -/
theorem find?_eq_some_of_unique {α : Type} {l : List α} {p : α → Bool} {a : α}
    (ha : a ∈ l) (hpa : p a = true)
    (huniq : ∀ b ∈ l, p b = true → b = a) :
    l.find? p = some a := by
  induction l with
  | nil => cases ha
  | cons x xs ih =>
    by_cases hx : p x = true
    · have : x = a := huniq x (List.mem_cons_self x xs) hx
      subst this
      simp [List.find?, hx]
    · have hax : a ∈ xs := by
        cases List.mem_cons.mp ha with
        | inl h => exact absurd (h ▸ hpa) hx
        | inr h => exact h
      have := ih hax (fun b hb hpb => huniq b (List.mem_cons_of_mem x hb) hpb)
      simp [List.find?, hx, this]

/-- Distinct keys make a matching element unique in a list. -/
theorem unique_of_pairwise_ne {α : Type} {key : α → String} {l : List α}
    (hpw : l.Pairwise (fun a b => key a ≠ key b))
    {a b : α} (ha : a ∈ l) (hb : b ∈ l) (hk : key a = key b) : a = b := by
  by_contra hne
  have hsym : Symmetric (fun x y : α => key x ≠ key y) := fun x y h => (Ne.symm h)
  exact (hpw.forall hsym ha hb hne) hk

/-- C1: For every `(module, class, member)` triple present in a well-formed
loaded schema catalog, `resolve` returns exactly the recorded byte offset;
for a triple absent at some level, `resolve` fails with the error of the
first missing level (`unknown module`, else `unknown class`, else
`unknown class member`), lookup being exact name equality throughout. -/
theorem resolve_exact_lookup_spec (c : CS2RuntimeOffsets) (q : RuntimeOffset)
    (hWF : catalogWF c) :
    (∀ s ∈ c.schema, s.schema_name = q.module →
      ∀ cl ∈ s.classes, cl.class_name = q.cls →
        ∀ m ∈ cl.offsets, m.field_name = q.member →
          c.resolve q = .ok m.offset) ∧
    ((∀ s ∈ c.schema, s.schema_name ≠ q.module) →
      c.resolve q = .error "unknown module") ∧
    (∀ s ∈ c.schema, s.schema_name = q.module →
      (∀ cl ∈ s.classes, cl.class_name ≠ q.cls) →
        c.resolve q = .error "unknown class") ∧
    (∀ s ∈ c.schema, s.schema_name = q.module →
      ∀ cl ∈ s.classes, cl.class_name = q.cls →
        (∀ m ∈ cl.offsets, m.field_name ≠ q.member) →
          c.resolve q = .error "unknown class member") := by
  obtain ⟨hscopes, hrest⟩ := hWF
  have findScope : ∀ s ∈ c.schema, s.schema_name = q.module →
      c.schema.find? (fun schema => schema.schema_name == q.module) = some s := by
    intro s hs hname
    apply find?_eq_some_of_unique hs (by simpa [beq_iff_eq] using hname)
    intro b hb hpb
    exact unique_of_pairwise_ne hscopes hb hs
      (by rw [beq_iff_eq.mp hpb, hname])
  have findClass : ∀ s ∈ c.schema, ∀ cl ∈ s.classes, cl.class_name = q.cls →
      s.classes.find? (fun cls => q.cls == cls.class_name) = some cl := by
    intro s hs cl hcl hname
    apply find?_eq_some_of_unique hcl (by simpa [beq_iff_eq] using hname.symm)
    intro b hb hpb
    exact unique_of_pairwise_ne (hrest s hs).1 hb hcl
      (by rw [← beq_iff_eq.mp hpb, hname])
  have findMember : ∀ s ∈ c.schema, ∀ cl ∈ s.classes, ∀ m ∈ cl.offsets,
      m.field_name = q.member →
      cl.offsets.find? (fun member => member.field_name == q.member) = some m := by
    intro s hs cl hcl m hm hname
    apply find?_eq_some_of_unique hm (by simpa [beq_iff_eq] using hname)
    intro b hb hpb
    exact unique_of_pairwise_ne ((hrest s hs).2 cl hcl) hb hm
      (by rw [beq_iff_eq.mp hpb, hname])
  refine ⟨?_, ?_, ?_, ?_⟩
  · intro s hs hsname cl hcl hclname m hm hmname
    simp [CS2RuntimeOffsets.resolve, findScope s hs hsname,
      findClass s hs cl hcl hclname, findMember s hs cl hcl m hm hmname, okOr,
      Except.instMonad, Except.bind, Except.map, Except.pure]
  · intro habsent
    have : c.schema.find? (fun schema => schema.schema_name == q.module) = none := by
      rw [List.find?_eq_none]
      intro s hs
      simpa [beq_iff_eq] using habsent s hs
    simp [CS2RuntimeOffsets.resolve, this, okOr,
      Except.instMonad, Except.bind, Except.map]
  · intro s hs hsname habsent
    have : s.classes.find? (fun cls => q.cls == cls.class_name) = none := by
      rw [List.find?_eq_none]
      intro cl hcl
      simp [beq_iff_eq]
      exact fun h => habsent cl hcl h.symm
    simp [CS2RuntimeOffsets.resolve, findScope s hs hsname, this, okOr,
      Except.instMonad, Except.bind, Except.map]
  · intro s hs hsname cl hcl hclname habsent
    have : cl.offsets.find? (fun member => member.field_name == q.member) = none := by
      rw [List.find?_eq_none]
      intro m hm
      simpa [beq_iff_eq] using habsent m hm
    simp [CS2RuntimeOffsets.resolve, findScope s hs hsname,
      findClass s hs cl hcl hclname, this, okOr,
      Except.instMonad, Except.bind, Except.map]

/-- Witness for C1 on the spec's own scenario catalog:
`client.dll / CBaseEntity / m_iHealth ↦ 0x344` resolves, and the absent
member `m_iArmor` fails with `unknown class member`. -/
theorem resolve_exact_lookup_spec_witness :
    demoCatalog.resolve ⟨"client.dll", "CBaseEntity", "m_iHealth"⟩ = .ok 0x344 ∧
    demoCatalog.resolve ⟨"client.dll", "CBaseEntity", "m_iArmor"⟩ =
      .error "unknown class member" := by
  have hWF : catalogWF demoCatalog := by
    simp [catalogWF, demoCatalog, demoScope, demoClass]
  constructor
  · have := (resolve_exact_lookup_spec demoCatalog
        ⟨"client.dll", "CBaseEntity", "m_iHealth"⟩ hWF).1
      demoScope (by simp [demoCatalog]) rfl
      demoClass (by simp [demoScope]) rfl
      demoMember (by simp [demoClass]) rfl
    simpa [demoMember] using this
  · exact (resolve_exact_lookup_spec demoCatalog
        ⟨"client.dll", "CBaseEntity", "m_iArmor"⟩ hWF).2.2.2
      demoScope (by simp [demoCatalog]) rfl
      demoClass (by simp [demoScope]) rfl
      (by intro m hm
          simp [demoClass] at hm
          simp [hm, demoMember])

/-- C2: when the instruction buffer read at the vtable's first entry does
not match the position-relative-load (`lea`) pattern, class-name
resolution returns the successful outcome `none` — not an error — and the
operation trace is exactly the two reads already performed: no further
decoding, bounds check or read happens in that call. -/
theorem vtable_mismatch_yields_none (mem : CS2Memory) (vtable fn : Nat)
    (asm : Fin 16 → Nat)
    (hq : mem.readQword (vtable + 0x00) = .ok fn)
    (hs : mem.readSlice16 fn = .ok asm)
    (hmm : leaPatternMismatch asm = true) :
    classNameFactory mem vtable =
      (.ok none, [.qword (vtable + 0x00), .slice fn 16]) := by
  have hq' : mem.readQword vtable = .ok fn := by simpa using hq
  simp [classNameFactory, hq', hs, hmm]

/-- Witness for C2: a concrete all-zero instruction buffer mismatches and
resolution yields `none` after exactly the two reads. -/
theorem vtable_mismatch_yields_none_witness :
    classNameFactory memMismatch 0x20 =
      (.ok none, [.qword 0x20, .slice 0x1000 16]) := by
  simpa using vtable_mismatch_yields_none memMismatch 0x20 0x1000 asmZero
    rfl rfl (by decide)

/-- C6: when the pattern matches, the schema descriptor address the
closure computes and checks — the third event of its trace — equals the
get-class-schema function address plus the sign-extended 32-bit
little-endian displacement taken from instruction bytes 12..16 plus
0x10, with wrapping (modulo 2^64) 64-bit addition. -/
theorem class_schema_addr_formula (mem : CS2Memory) (vtable fn : Nat)
    (asm : Fin 16 → Nat)
    (hq : mem.readQword (vtable + 0x00) = .ok fn)
    (hs : mem.readSlice16 fn = .ok asm)
    (hmatch : leaPatternMismatch asm = false)
    (hfn : fn < 2 ^ 64) (hb : ∀ i : Fin 16, asm i < 256) :
    (∃ rest, (classNameFactory mem vtable).2 =
      [.qword (vtable + 0x00), .slice fn 16,
       .moduleCheck (classSchemaAddr fn asm)] ++ rest) ∧
    (classSchemaAddr fn asm : Int) =
      ((fn : Int) + dispSigned asm + 0x10) % 2 ^ 64 := by
  constructor
  · have hq' : mem.readQword vtable = .ok fn := by simpa using hq
    by_cases hmc : mem.moduleAddressClient (classSchemaAddr fn asm) = false
    · refine ⟨[], ?_⟩
      simp [classNameFactory, hq', hs, hmatch, hmc]
    · rcases hread : mem.readString [classSchemaAddr fn asm + 0x08, 0] (some 32)
        with e | s <;>
      · refine ⟨[MemEvent.str [classSchemaAddr fn asm + 0x08, 0] (some 32)], ?_⟩
        simp [classNameFactory, hq', hs, hmatch, hmc, hread]
  · have h12 := hb 12
    have h13 := hb 13
    have h14 := hb 14
    have h15 := hb 15
    unfold classSchemaAddr wadd64 i32AsU64 dispSigned leU32 at *
    split_ifs <;> omega

/-- Witness for C6: at a concrete oracle whose matching buffer carries a
zero displacement, the checked address obeys the signed-displacement
formula. -/
theorem class_schema_addr_formula_witness :
    (∃ rest, (classNameFactory memOutOfRange 0x20).2 =
      [.qword (0x20 + 0x00), .slice 0x1000 16,
       .moduleCheck (classSchemaAddr 0x1000 asmLea)] ++ rest) ∧
    (classSchemaAddr 0x1000 asmLea : Int) =
      (((0x1000 : Nat) : Int) + dispSigned asmLea + 0x10) % 2 ^ 64 :=
  class_schema_addr_formula memOutOfRange 0x20 0x1000 asmLea rfl rfl
    (by decide) (by norm_num) (by decide)

/-- C4 (amended): when the pattern matches but the computed schema
descriptor address fails the Client-module bounds check, the attempt is
abandoned (a warning is logged): no class-name string read is performed
and the factory returns the successful outcome `none` — the same
non-error outcome as the foreign-module case, not an `OutOfRange`
error. -/
theorem out_of_range_yields_none (mem : CS2Memory) (vtable fn : Nat)
    (asm : Fin 16 → Nat)
    (hq : mem.readQword (vtable + 0x00) = .ok fn)
    (hs : mem.readSlice16 fn = .ok asm)
    (hmatch : leaPatternMismatch asm = false)
    (hoor : mem.moduleAddressClient (classSchemaAddr fn asm) = false) :
    classNameFactory mem vtable =
      (.ok none, [.qword (vtable + 0x00), .slice fn 16,
                  .moduleCheck (classSchemaAddr fn asm)]) := by
  have hq' : mem.readQword vtable = .ok fn := by simpa using hq
  simp [classNameFactory, hq', hs, hmatch, hoor]

/-- Witness for the amended C4 at a concrete out-of-range input. -/
theorem out_of_range_yields_none_witness :
    classNameFactory memOutOfRange 0x20 =
      (.ok none, [.qword (0x20 + 0x00), .slice 0x1000 16,
                  .moduleCheck (classSchemaAddr 0x1000 asmLea)]) :=
  out_of_range_yields_none memOutOfRange 0x20 0x1000 asmLea rfl rfl
    (by decide) rfl

/-- C4 counterexample: at a concrete vtable whose decoded descriptor
address fails the Client-module bounds check, the factory returns
`Ok(None)` — a success carrying no name, with no string read attempted —
whereas the claim calls for a rejection of the `OutOfRange` error kind;
no error of any kind is produced. -/
theorem out_of_range_not_an_error :
    (classNameFactory memOutOfRange 0x20).1 = .ok none ∧
    (classNameFactory memOutOfRange 0x20).1.isOk = true ∧
    (classNameFactory memOutOfRange 0x20).2.any MemEvent.isStr = false := by
  refine ⟨?_, ?_, ?_⟩ <;> rfl

/-- C3 counterexample: after ten consecutive frame failures the failure
count has reached the threshold 10, yet no cool-down has been entered
(`update_timeout` is still `None`) and the next frame still invokes
`app.update`; only an eleventh failure enters the cool-down. -/
theorem cooldown_not_entered_at_threshold :
    runFrames tenFailures ⟨0, none⟩ = ⟨10, none⟩ ∧
    frameStep 10 true ⟨10, none⟩ = (⟨10, none⟩, true) ∧
    frameStep 10 false ⟨10, none⟩ = (⟨0, some (10, 1000)⟩, true) := by
  decide

/-- C3 (amended): a frame failure occurring while the failure count is
already at the threshold 10 (i.e. the eleventh failure) enters a
cool-down of 1000 ms, resetting the counter to 0 at entry; any frame
whose time is within the cool-down window returns without invoking
update and leaves the state unchanged; a frame past the window clears
the cool-down and resumes the update phase with the counter still 0. -/
theorem cooldown_backoff_behavior (now start : Nat) (s : DriverState) (b : Bool) :
    (s.timeout = none → s.failCount ≥ 10 →
      frameStep now false s = (⟨0, some (now, 1000)⟩, true)) ∧
    (s.timeout = some (start, 1000) → now - start ≤ 1000 →
      frameStep now b s = (s, false)) ∧
    (now - start > 1000 →
      frameStep now b ⟨0, some (start, 1000)⟩ =
        frameUpdatePhase now b ⟨0, none⟩ ∧
      (frameStep now b ⟨0, some (start, 1000)⟩).2 = true ∧
      frameStep now true ⟨0, some (start, 1000)⟩ = (⟨0, none⟩, true)) := by
  refine ⟨?_, ?_, ?_⟩
  · intro ht hc
    simp [frameStep, ht, frameUpdatePhase, hc]
  · intro ht hle
    have hn : ¬ (now - start > 1000) := by omega
    simp [frameStep, ht, hn]
  · intro hgt
    refine ⟨?_, ?_, ?_⟩
    · simp [frameStep, hgt]
    · cases b <;> simp [frameStep, hgt, frameUpdatePhase]
    · simp [frameStep, hgt, frameUpdatePhase]

/-- Witness for the amended C3: an eleventh failure at time 5 enters the
cool-down; a frame at time 500 skips update; a frame at time 1206
resumes with the counter at 0. -/
theorem cooldown_backoff_behavior_witness :
    frameStep 5 false ⟨10, none⟩ = (⟨0, some (5, 1000)⟩, true) ∧
    frameStep 500 true ⟨0, some (5, 1000)⟩ = (⟨0, some (5, 1000)⟩, false) ∧
    frameStep 1206 true ⟨0, some (5, 1000)⟩ = (⟨0, none⟩, true) :=
  ⟨(cooldown_backoff_behavior 5 0 ⟨10, none⟩ false).1 rfl (by decide),
   (cooldown_backoff_behavior 500 5 ⟨0, some (5, 1000)⟩ true).2.1 rfl (by decide),
   ((cooldown_backoff_behavior 1206 5 ⟨0, some (5, 1000)⟩ true).2.2 (by decide)).2.2⟩

@[simp]
theorem toggleSettingsKey_globals_offset (p : Bool) (s : AppState) :
    (toggleSettingsKey p s).globals_offset = s.globals_offset := by
  cases p <;> simp [toggleSettingsKey]

@[simp]
theorem toggleSettingsKey_frame_read_calls (p : Bool) (s : AppState) :
    (toggleSettingsKey p s).frame_read_calls = s.frame_read_calls := by
  cases p <;> simp [toggleSettingsKey]

@[simp]
theorem toggleSettingsKey_last_total_read_calls (p : Bool) (s : AppState) :
    (toggleSettingsKey p s).last_total_read_calls = s.last_total_read_calls := by
  cases p <;> simp [toggleSettingsKey]

@[simp]
theorem toggleSettingsKey_cs2_globals (p : Bool) (s : AppState) :
    (toggleSettingsKey p s).cs2_globals = s.cs2_globals := by
  cases p <;> simp [toggleSettingsKey]

/-- C5: after a successful `Application::update`, `frame_read_calls`
equals the total read-call counter sampled at the end of this update
minus its stored value from the end of the previous successful update,
and `last_total_read_calls` becomes the current total; the counter only
grows, so the difference is exact and non-negative. -/
theorem update_read_call_bookkeeping (env : UpdateEnv) (s : AppState)
    (hmono : s.last_total_read_calls ≤ env.totalReadCalls)
    (hok : (Application.update env s).result = .ok ()) :
    (Application.update env s).state.frame_read_calls =
      env.totalReadCalls - s.last_total_read_calls ∧
    (Application.update env s).state.last_total_read_calls =
      env.totalReadCalls ∧
    (Application.update env s).state.frame_read_calls +
      s.last_total_read_calls = env.totalReadCalls := by
  rcases hsl : updateSettingsLoop env.settingsResults s.settings_dirty
    with ⟨dirty1, err1⟩
  cases err1 with
  | some e => simp [Application.update, hsl] at hok
  | none =>
    cases hvm : env.viewMatrixResult with
    | error e => simp [Application.update, hsl, hvm] at hok
    | ok u =>
      cases hg : env.readGlobalsChain [s.globals_offset, 0] with
      | error e => simp [Application.update, hsl, hvm, hg] at hok
      | ok g =>
        cases hfe : firstError env.enhancementResults with
        | some e => simp [Application.update, hsl, hvm, hg, hfe] at hok
        | none =>
          refine ⟨?_, ?_, ?_⟩ <;>
            simp [Application.update, hsl, hvm, hg, hfe] <;> omega

/-- Witness for C5 at a concrete environment: 7 total reads against a
stored previous total of 3 yield 4 frame reads. -/
theorem update_read_call_bookkeeping_witness :
    (Application.update envOk appState0).state.frame_read_calls = 7 - 3 ∧
    (Application.update envOk appState0).state.last_total_read_calls = 7 ∧
    (Application.update envOk appState0).state.frame_read_calls + 3 = 7 := by
  exact update_read_call_bookkeeping envOk appState0 (by decide) rfl

/-- C10: whenever `Application::update` returns an error, the read-call
bookkeeping fields `frame_read_calls` and `last_total_read_calls` keep
the values they had before the call: the bookkeeping at the end of
`update` runs only when every prior step succeeded. -/
theorem update_error_preserves_bookkeeping (env : UpdateEnv) (s : AppState)
    (e : Err) (herr : (Application.update env s).result = .error e) :
    (Application.update env s).state.frame_read_calls = s.frame_read_calls ∧
    (Application.update env s).state.last_total_read_calls =
      s.last_total_read_calls := by
  rcases hsl : updateSettingsLoop env.settingsResults s.settings_dirty
    with ⟨dirty1, err1⟩
  cases err1 with
  | some e1 => refine ⟨?_, ?_⟩ <;> simp [Application.update, hsl]
  | none =>
    cases hvm : env.viewMatrixResult with
    | error e1 => refine ⟨?_, ?_⟩ <;> simp [Application.update, hsl, hvm]
    | ok u =>
      cases hg : env.readGlobalsChain [s.globals_offset, 0] with
      | error e1 =>
        refine ⟨?_, ?_⟩ <;> simp [Application.update, hsl, hvm, hg]
      | ok g =>
        cases hfe : firstError env.enhancementResults with
        | some e1 =>
          refine ⟨?_, ?_⟩ <;> simp [Application.update, hsl, hvm, hg, hfe]
        | none => simp [Application.update, hsl, hvm, hg, hfe] at herr

/-- Witness for C10: a failing view-matrix update leaves both
bookkeeping fields at their prior values 1 and 3. -/
theorem update_error_preserves_bookkeeping_witness :
    (Application.update envViewFail appState0).state.frame_read_calls = 1 ∧
    (Application.update envViewFail appState0).state.last_total_read_calls = 3 := by
  exact update_error_preserves_bookkeeping envViewFail appState0 "view fault" rfl

/-- C8: the `Globals` snapshot `update` hands to the enhancements is the
value produced this very invocation by the pointer chain rooted at the
globals offset (`[cs2_offsets.globals, 0]`), and the stored
`cs2_globals` field never influences it: no update returns a snapshot
carried over from a previous frame. -/
theorem update_globals_read_fresh (env : UpdateEnv) (s : AppState)
    (g : Globals) (old : Option Globals) :
    ((Application.update env s).globalsUsed = some g →
      env.readGlobalsChain [s.globals_offset, 0] = .ok g) ∧
    (Application.update env { s with cs2_globals := old }).globalsUsed =
      (Application.update env s).globalsUsed := by
  rcases hsl : updateSettingsLoop env.settingsResults s.settings_dirty
    with ⟨dirty1, err1⟩
  cases err1 with
  | some e => refine ⟨?_, ?_⟩ <;> simp [Application.update, hsl]
  | none =>
    cases hvm : env.viewMatrixResult with
    | error e => refine ⟨?_, ?_⟩ <;> simp [Application.update, hsl, hvm]
    | ok u =>
      cases hg : env.readGlobalsChain [s.globals_offset, 0] with
      | error e =>
        refine ⟨?_, ?_⟩ <;> simp [Application.update, hsl, hvm, hg]
      | ok g0 =>
        cases hfe : firstError env.enhancementResults with
        | some e =>
          refine ⟨?_, ?_⟩ <;> simp [Application.update, hsl, hvm, hg, hfe]
        | none =>
          refine ⟨?_, ?_⟩ <;> simp [Application.update, hsl, hvm, hg, hfe]

/-- Witness for C8: the snapshot handed out equals the chain read's
value and a differing stored `cs2_globals` changes nothing. -/
theorem update_globals_read_fresh_witness :
    envOk.readGlobalsChain [appState0.globals_offset, 0] = .ok ⟨42⟩ ∧
    (Application.update envOk
        { appState0 with cs2_globals := some ⟨99⟩ }).globalsUsed =
      (Application.update envOk appState0).globalsUsed :=
  ⟨(update_globals_read_fresh envOk appState0 ⟨42⟩ (some ⟨99⟩)).1 rfl,
   (update_globals_read_fresh envOk appState0 ⟨42⟩ (some ⟨99⟩)).2⟩

/-- C7: if reading the target's build info, resolving the session-level
offsets or dumping the schema for the runtime offset provider fails
during startup, `main_overlay` propagates the error and aborts before
the overlay is initialized or any frame runs. -/
theorem startup_failure_aborts (env : OverlayEnv)
    (h1 : env.versionInfo.isOk = true)
    (h2 : env.loadSettings.isOk = true)
    (h3 : env.createHandle.isOk = true)
    (hfail : env.readBuildInfo.isOk = false ∨ env.resolveOffsets.isOk = false ∨
             env.dumpSchema.isOk = false) :
    (main_overlay env).1.isOk = false ∧ (main_overlay env).2 = [] := by
  obtain ⟨v, l, c, b, r, d, oi, ml⟩ := env
  dsimp only at h1 h2 h3 hfail ⊢
  cases v <;> cases l <;> cases c <;> cases b <;> cases r <;> cases d <;>
    simp_all [main_overlay, Except.isOk, Except.toBool]

/-- Witness for C7: a failing build-info read with all earlier steps
succeeding aborts with an error and no overlay/frame event. -/
theorem startup_failure_aborts_witness :
    (main_overlay envBuildInfoFail).1.isOk = false ∧
    (main_overlay envBuildInfoFail).2 = [] :=
  startup_failure_aborts envBuildInfoFail rfl rfl rfl (Or.inl rfl)

/-- C9: for a `PtrCStr` whose stored address resolves to `a`,
`try_read_string` returns `Ok(None)` with no string read attempted
exactly when `a = 0`, and for nonzero `a` it attempts the read at `a`,
returning `Ok(Some ..)` on success; `read_string` by contrast issues the
read at `a` unconditionally, a zero address included. -/
theorem ptr_cstr_read_semantics (p : PtrCStr) (m : Nat → Except Err String)
    (a : Nat) (ha : p.address = .ok a) :
    (p.try_read_string m = (.ok none, []) ↔ a = 0) ∧
    (a ≠ 0 → (p.try_read_string m).2 = [a] ∧
      ∀ str, m a = .ok str → p.try_read_string m = (.ok (some str), [a])) ∧
    (p.read_string m).2 = [a] := by
  refine ⟨?_, ?_, ?_⟩
  · constructor
    · intro h
      by_contra hne
      rcases hm : m a with e | str <;>
        simp [PtrCStr.try_read_string, ha, hne, hm] at h
    · intro h
      simp [PtrCStr.try_read_string, ha, h]
  · intro hne
    constructor
    · rcases hm : m a with e | str <;>
        simp [PtrCStr.try_read_string, ha, hne, hm]
    · intro str hm
      simp [PtrCStr.try_read_string, ha, hne, hm]
  · simp [PtrCStr.read_string, ha]

/-- Witness for C9 at a null pointer and at address 5. -/
theorem ptr_cstr_read_semantics_witness :
    (ptrNull.try_read_string memStr = (.ok none, []) ↔ (0 : Nat) = 0) ∧
    (ptrFive.try_read_string memStr).2 = [5] ∧
    (ptrFive.read_string memStr).2 = [5] :=
  ⟨(ptr_cstr_read_semantics ptrNull memStr 0 rfl).1,
   ((ptr_cstr_read_semantics ptrFive memStr 5 rfl).2.1 (by decide)).1,
   (ptr_cstr_read_semantics ptrFive memStr 5 rfl).2.2⟩
